import Mathlib

/-!
Shallow embedding of the `@billjs/request` browser HTTP library
(src/index.ts) and proofs about the claims of its specification.

The library's response handling manipulates dynamically typed JavaScript
values (parsed JSON bodies, error fields read with `||` defaulting), so the
embedding starts from a small model of JavaScript runtime values and the
exact operations the source performs on them: truthiness, `||`, property
reads (which throw a TypeError on `null`/`undefined`), `hasOwnProperty`,
and property assignment. External collaborators declared out of scope by
the repository (the `@billjs/query-string` serializer, the `JSON`
builtins) are passed in as function parameters.
-/

namespace BilljsRequest

/-- JavaScript runtime values, as far as the library's request/response
handling inspects them. `undef` is JavaScript `undefined` (the result of a
missing property read). Arrays are not distinguished from other objects
because no code path in the library treats them specially. -/
inductive JValue : Type where
  | undefined : JValue
  | null : JValue
  | bool (b : Bool) : JValue
  | num (n : Int) : JValue
  | str (s : String) : JValue
  | obj (fields : List (String × JValue)) : JValue

/-- JavaScript `v === void 0`. -/
def isUndefined : JValue → Bool
  | .undefined => true
  | _ => false

/-- JavaScript `v == null` (loose equality: true for both `null` and
`undefined`). -/
def isNullish : JValue → Bool
  | .undefined => true
  | .null => true
  | _ => false

/-- Plain prefix test on character lists (computable by kernel
reduction, unlike `String.startsWith`). -/
def charsPrefix : List Char → List Char → Bool
  | [], _ => true
  | _ :: _, [] => false
  | p :: ps, c :: cs => (c == p) && charsPrefix ps cs

/-- `s` starts with `pat`. -/
def strStartsWith (s pat : String) : Bool :=
  charsPrefix pat.data s.data

/-- Case-insensitive match of one source character against a known
lowercase pattern character (the semantics of a regex `/i` flag on ASCII
letters): equal, or the pattern is a lowercase letter and the source is
its uppercase form. -/
def ciCharEq (c p : Char) : Bool :=
  (c == p) || (decide ('a' ≤ p) && decide (p ≤ 'z') && (c.toNat + 32 == p.toNat))

/-- Case-insensitive prefix test against a lowercase pattern. -/
def ciCharsPrefix : List Char → List Char → Bool
  | [], _ => true
  | _ :: _, [] => false
  | p :: ps, c :: cs => ciCharEq c p && ciCharsPrefix ps cs

/-- `s` starts with `pat` up to ASCII case on letters (`pat` lowercase). -/
def ciStartsWith (s pat : String) : Bool :=
  ciCharsPrefix pat.data s.data

/-- Key lookup in an ordered association list (the first matching entry),
modelling property access on a JavaScript object's own keys. -/
def alookup {β : Type} (k : String) : List (String × β) → Option β
  | [] => none
  | (k0, v) :: rest => if k = k0 then some v else alookup k rest

/-- Replace the value stored under an existing key, keeping entry order
(the in-place update half of a JavaScript property assignment). -/
def replaceEntry {β : Type} (k : String) (x : β) : List (String × β) → List (String × β)
  | [] => []
  | (k0, v0) :: rest =>
    if k0 = k then (k, x) :: replaceEntry k x rest
    else (k0, v0) :: replaceEntry k x rest

/-- JavaScript truthiness (`if (v)`). -/
def truthy : JValue → Bool
  | .undefined => false
  | .null => false
  | .bool b => b
  | .num n => decide (n ≠ 0)
  | .str s => decide (s ≠ "")
  | .obj _ => true

/-- JavaScript `a || b`. -/
def jsOr (a b : JValue) : JValue := if truthy a then a else b

/-- JavaScript string coercion (`'' + v`, the `Error` constructor's
message argument) on the values we model. -/
def jsToString : JValue → String
  | .undefined => "undefined"
  | .null => "null"
  | .bool b => if b then "true" else "false"
  | .num n => toString n
  | .str s => s
  | .obj _ => "[object Object]"

/-- The `RequestError` class (src 138-152). `status` and `code` are stored
without coercion (the class assigns the constructor arguments directly);
`message` goes through the `Error` superclass constructor, which coerces
to string (and leaves the empty string when the argument is `undefined`);
`stack` is only assigned when the argument is truthy (`if (stack)
this.stack = stack`), `none` standing for the native stack. -/
structure RequestError : Type where
  status : JValue
  code : JValue
  message : String
  stack : Option JValue

/-- Build a `RequestError` the way `new RequestError(status, code, msg,
stack?)` does. -/
def mkRequestError (status code msg stackArg : JValue) : RequestError :=
  { status := status
    code := code
    message := if isUndefined msg then "" else jsToString msg
    stack := if truthy stackArg then some stackArg else none }

/-- A thrown JavaScript exception: either a `RequestError` or a TypeError
(from a property access on `null`/`undefined`). -/
inductive JSException : Type where
  | reqError (e : RequestError) : JSException
  | typeError : JSException

/-- JavaScript property read `v.k`. Reading a property of `null` or
`undefined` throws a TypeError; on primitives, the property names this
library reads are never present, so the read yields `undefined`. -/
def getProp : JValue → String → Except JSException JValue
  | .null, _ => .error .typeError
  | .undefined, _ => .error .typeError
  | .obj fs, k => .ok ((alookup k fs).getD .undefined)
  | _, _ => .ok .undefined

/-- JavaScript `v.hasOwnProperty(k)`. Throws a TypeError on
`null`/`undefined`; `false` on primitives (the keys the library tests are
never own properties of boxed primitives). -/
def hasOwnProp : JValue → String → Except JSException Bool
  | .null, _ => .error .typeError
  | .undefined, _ => .error .typeError
  | .obj fs, k => .ok (alookup k fs).isSome
  | _, _ => .ok false

/-- JavaScript property write `v.k = x` on an object: update in place when
the key exists (JavaScript objects keep insertion order), append
otherwise. -/
def setProp (v : JValue) (k : String) (x : JValue) : JValue :=
  match v with
  | .obj fs =>
    if (alookup k fs).isSome then .obj (replaceEntry k x fs)
    else .obj (fs ++ [(k, x)])
  | w => w

/-- Total variant of a property read for values known not to be
`null`/`undefined` (used only to state theorems). -/
def jprop (v : JValue) (k : String) : JValue :=
  match v with
  | .obj fs => (alookup k fs).getD .undefined
  | _ => .undefined

/-- Total variant of `hasOwnProperty` for values known not to be
`null`/`undefined` (used only to state theorems). -/
def jhasOwn (v : JValue) (k : String) : Bool :=
  match v with
  | .obj fs => (alookup k fs).isSome
  | _ => false

-- Status and error constants (src 457-471). The error message constant is
-- spelled exactly as in the source.
def REQUEST_SUCCESS_STATUS : Int := 200
def REQUEST_300_STATUS : Int := 300
def REQUEST_CACHE_STATUS : Int := 304
def REQUEST_TIMEOUT_STATUS : Int := 504
def REQUEST_TIMEOUT_CODE : String := "1001"
def REQUEST_TIMEOUT_MSG : String := "Request Timeout"
def REQUEST_ERROR_STATUS : Int := 500
def REQUEST_ERROR_CODE : String := "1000"
def REQUEST_ERROR_MSG : String := "Unknow Error"
def REQUEST_ABORT_STATUS : Int := 400
def REQUEST_ABORT_CODE : String := "1002"
def REQUEST_ABORT_MSG : String := "Request Aborted"

/-- `defaultParseResponse` (src 868-888). When the body owns both a
`success` and a `data` property it is returned with falsy `statusCode`
replaced by 200, falsy `errorCode` replaced by 0, and strictly-undefined
`errorMessage`/`errorStack` replaced by null; otherwise the whole body is
wrapped. `result.hasOwnProperty(...)` throws a TypeError when the body is
`null`. -/
def defaultParseResponse (result : JValue) : Except JSException JValue := do
  let hs ← hasOwnProp result "success"
  let hd ← hasOwnProp result "data"
  if hs && hd then
    let sc ← getProp result "statusCode"
    let r1 := if truthy sc then result else
      setProp result "statusCode" (.num REQUEST_SUCCESS_STATUS)
    let ec ← getProp r1 "errorCode"
    let r2 := if truthy ec then r1 else setProp r1 "errorCode" (.num 0)
    let em ← getProp r2 "errorMessage"
    let r3 := if isUndefined em then setProp r2 "errorMessage" .null else r2
    let es ← getProp r3 "errorStack"
    let r4 := if isUndefined es then setProp r3 "errorStack" .null else r3
    pure r4
  else
    pure (.obj
      [("success", .bool true),
       ("statusCode", .num REQUEST_SUCCESS_STATUS),
       ("errorCode", .num 0),
       ("errorMessage", .null),
       ("errorStack", .null),
       ("data", result)])

/-- The response dataType (`RequestDataType`, src 26). -/
inductive RDataType : Type where
  | json : RDataType
  | text : RDataType
deriving DecidableEq

/-- `Request.parseResponse` (src 846-865). For `json` dataType the parser
is the per-call `options.parse`, else the global `responseParseFunction`,
else `defaultParseResponse`; custom parsers are modelled as pure
functions. If the resulting response data's `success` field is falsy, a
`RequestError` built from its fields is thrown (`'' + errorCode` coerces
the code to a string, `errorMessage || REQUEST_ERROR_MSG` defaults the
message); otherwise its `data` field is returned. For non-`json` dataType
the raw result is returned verbatim. -/
def parseResponse (dt : RDataType) (perCall globalP : Option (JValue → JValue))
    (result : JValue) : Except JSException JValue :=
  match dt with
  | .text => .ok result
  | .json => do
    let responseData ←
      match perCall with
      | some f => pure (f result)
      | none =>
        match globalP with
        | some f => pure (f result)
        | none => defaultParseResponse result
    let sv ← getProp responseData "success"
    if truthy sv then
      getProp responseData "data"
    else
      let sc ← getProp responseData "statusCode"
      let ec ← getProp responseData "errorCode"
      let em ← getProp responseData "errorMessage"
      let es ← getProp responseData "errorStack"
      .error (.reqError (mkRequestError sc (.str (jsToString ec))
        (jsOr em (.str REQUEST_ERROR_MSG)) es))

/-- The status classification both load handlers share (src 668-672 and
776-780): `status < 200 || (status >= 300 && status !== 304)`. -/
def isFailureStatus (status : Int) : Bool :=
  decide (status < REQUEST_SUCCESS_STATUS) ||
    (decide (REQUEST_300_STATUS ≤ status) &&
      decide (status ≠ REQUEST_CACHE_STATUS))

/-- How the promise wrapped around a fetch-transport response settles. -/
inductive FetchOutcome : Type where
  | resolve (v : JValue) : FetchOutcome
  | reject (e : JSException) : FetchOutcome

/-- `Request.onFetchLoad` (src 662-687), after the body promise produced by
`parseFetchData` has resolved with `result`. On a failure status the
rejection error is built from `result.errormsg || res.statusText ||
REQUEST_ERROR_MSG` and `result.errorcode || '' + status`; a TypeError from
those property reads (a `null` body) is thrown inside the then-callback
and flows to `reject` through `.catch(reject)`. On a success status,
`resolve(this.parseResponse(result))` runs inside
`try ... catch (err) { reject(err) }`. -/
def onFetchLoad (dt : RDataType) (perCall globalP : Option (JValue → JValue))
    (status : Int) (statusText : String) (result : JValue) : FetchOutcome :=
  if isFailureStatus status then
    match (do
      let em ← getProp result "errormsg"
      let ec ← getProp result "errorcode"
      let msg := jsOr em (jsOr (.str statusText) (.str REQUEST_ERROR_MSG))
      pure (mkRequestError (.num status)
        (jsOr ec (.str (toString status))) msg .undefined) :
        Except JSException RequestError) with
    | .ok e => .reject (.reqError e)
    | .error te => .reject te
  else
    match parseResponse dt perCall globalP result with
    | .ok d => .resolve d
    | .error e => .reject e

/-- `parseFetchJSONData` (src 700-707): the fetch transport substitutes an
empty object whenever the body's JSON decoding rejects
(`res.json().then(resolve).catch(() => resolve({}))`). The decode outcome
of the external JSON machinery is a parameter. -/
def parseFetchJSONData (decoded : Except Unit JValue) : JValue :=
  match decoded with
  | .ok v => v
  | .error _ => .obj []

/-- How the promise wrapped around the XHR transport settles after a load
event. `hang` records that an exception escaped the `onload` handler: the
handler body has no enclosing catch, `resolve`/`reject` are never called,
and the promise never settles. `noSettle` is the early return for
`readyState !== 4`. -/
inductive XhrOutcome : Type where
  | resolve (v : JValue) : XhrOutcome
  | reject (e : JSException) : XhrOutcome
  | hang : XhrOutcome
  | noSettle : XhrOutcome

/-- The tail of `Request.onXHRLoad` (src 775-793) once `result` has been
computed: the same status classification as the fetch transport, but the
failure-branch property reads (`result.errormsg`, `result.errorcode`) are
NOT inside any try/catch, so a TypeError there escapes the handler and the
promise hangs; only `resolve(this.parseResponse(result))` is wrapped in
`try ... catch (err) { reject(err) }`. -/
def onXHRLoadClassify (dt : RDataType) (perCall globalP : Option (JValue → JValue))
    (status : Int) (statusText : String) (result : JValue) : XhrOutcome :=
  if isFailureStatus status then
    match (do
      let em ← getProp result "errormsg"
      let ec ← getProp result "errorcode"
      let msg := jsOr em (jsOr (.str statusText) (.str REQUEST_ERROR_MSG))
      pure (mkRequestError (.num status)
        (jsOr ec (.str (toString status))) msg .undefined) :
        Except JSException RequestError) with
    | .ok e => .reject (.reqError e)
    | .error _ => .hang
  else
    match parseResponse dt perCall globalP result with
    | .ok d => .resolve d
    | .error e => .reject e

/-- `Request.onXHRLoad` (src 760-795). `jsonParse` models the `JSON.parse`
builtin (`.error` = it threw a SyntaxError). The handler acts only at
`readyState === 4`; it reads `xhr.responseText || ''` and, for `json`
dataType, runs `result = result ? JSON.parse(result) : {}` with no
try/catch around it, so a parse exception escapes the handler and the
promise never settles. -/
def onXHRLoad (jsonParse : String → Except Unit JValue) (dt : RDataType)
    (perCall globalP : Option (JValue → JValue)) (readyState : Nat)
    (status : Int) (statusText : String) (responseText : String) : XhrOutcome :=
  if readyState = 4 then
    match dt with
    | .json =>
      if responseText = "" then
        onXHRLoadClassify dt perCall globalP status statusText (.obj [])
      else
        match jsonParse responseText with
        | .error _ => .hang
        | .ok result => onXHRLoadClassify dt perCall globalP status statusText result
    | .text => onXHRLoadClassify dt perCall globalP status statusText (.str responseText)
  else .noSettle

/-- `Request.onXHRError` (src 797-807): the fixed failure the generic
transport-error handler rejects with. -/
def onXHRErrorRejection : RequestError :=
  mkRequestError (.num REQUEST_ERROR_STATUS) (.str REQUEST_ERROR_CODE)
    (.str REQUEST_ERROR_MSG) .undefined

/-- `Request.onXHRTimeout` (src 821-831) rejection. -/
def onXHRTimeoutRejection : RequestError :=
  mkRequestError (.num REQUEST_TIMEOUT_STATUS) (.str REQUEST_TIMEOUT_CODE)
    (.str REQUEST_TIMEOUT_MSG) .undefined

/-- `Request.onXHRAbort` (src 809-819) rejection. -/
def onXHRAbortRejection : RequestError :=
  mkRequestError (.num REQUEST_ABORT_STATUS) (.str REQUEST_ABORT_CODE)
    (.str REQUEST_ABORT_MSG) .undefined

/-- The submission type (`RequestType`, src 24). -/
inductive RType : Type where
  | json : RType
  | text : RType
  | urlencoded : RType
  | form : RType
deriving DecidableEq

/-- The `contentTypes` table (src 450-455). -/
def contentTypes : RType → String
  | .json => "application/json"
  | .text => "text/plain"
  | .urlencoded => "application/x-www-form-urlencoded"
  | .form => "multipart/form-data"

/-- The dataType strings index the same `contentTypes` table
(`contentTypes[val]` in the dataType setter, src 572); both dataType
strings are keys of the table, so the `|| '*/*'` fallback of that setter
is unreachable for the typed inputs. -/
def rtypeOfDataType : RDataType → RType
  | .json => .json
  | .text => .text

/-- The header map. JavaScript objects keep insertion order, so an ordered
association list models `this.headers`. -/
abbrev Headers := List (String × String)

/-- `Request.setHeader` (src 584-586): `this.headers[key] = val` updates
an existing key in place (JavaScript objects keep insertion order) or
appends a new one. -/
def setHeader (hs : Headers) (k v : String) : Headers :=
  if (alookup k hs).isSome then replaceEntry k v hs
  else hs ++ [(k, v)]

/-- `Request.removeHeader` (src 588-590): `delete this.headers[key]`. -/
def removeHeader (hs : Headers) (k : String) : Headers :=
  hs.filter (fun p => decide (p.1 ≠ k))

/-- The `contentType` option / setter argument: the literal `false`
(`omit`) or a MIME string. -/
inductive ContentTypeOpt : Type where
  | omit : ContentTypeOpt
  | mime (s : String) : ContentTypeOpt

/-- The `contentType` setter (src 576-582). -/
def applyContentTypeSetter (hs : Headers) : ContentTypeOpt → Headers
  | .omit => removeHeader hs "Content-Type"
  | .mime s => setHeader hs "Content-Type" s

/-- The header effect of the `type` setter (src 557-564): `form` assigns
`contentType = false` (removing the header), any other type assigns its
`contentTypes` entry. -/
def typeSetterHeaders (hs : Headers) : RType → Headers
  | .form => applyContentTypeSetter hs .omit
  | t => applyContentTypeSetter hs (.mime (contentTypes t))

/-- `Object.assign(this.headers, options.headers)` (src 508): the caller's
headers are written one by one, in order, over the derived map. -/
def assignHeaders (hs extra : Headers) : Headers :=
  extra.foldl (fun acc kv => setHeader acc kv.1 kv.2) hs

/-- `Request.isQuery` (src 592-594). -/
def isQuery (method : String) : Bool :=
  method == "GET" || method == "HEAD"

/-- `ABSOLUTE_PATH_REG = /^(?:http[s]?:)?\/\/(.*?)/i` (src 447). The
pattern matches exactly the urls starting with `//`, `http://` or
`https://` (scheme case-insensitive). The capture group `(.*?)` is lazy
and is the final element of the pattern, so on every successful match it
captures as little as possible: the EMPTY string. `RegExp.$1` is therefore
`""` whenever the pattern matches, never the actual host. -/
def absolutePathMatch (url : String) : Option String :=
  if strStartsWith url "//" || ciStartsWith url "http://" ||
      ciStartsWith url "https://" then
    some ""
  else none

/-- The cross-origin update performed by the `url` setter (src 523-531):
when the absolute pattern matches and the captured domain differs from
`window.location.hostname`, set `cors`; otherwise leave it unchanged. -/
def urlSetterCors (hostname url : String) (cors : Bool) : Bool :=
  match absolutePathMatch url with
  | some domain => if domain ≠ hostname then true else cors
  | none => cors

/-- `Request.resolveURL` (src 511-517). `qsStringify` models the external
`qs.stringify`. For query methods with truthy data, a string is appended
as-is (prefixed with `?` unless it already starts with `?`, the
`/^\?/.test(data)` check); any other value is serialized first. -/
def resolveURL (qsStringify : JValue → String) (method url : String)
    (data : JValue) : String :=
  if isQuery method && truthy data then
    let d : String :=
      match data with
      | .str s => s
      | other => qsStringify other
    url ++ (if strStartsWith d "?" then d else "?" ++ d)
  else url

/-- The `data` setter (src 537-551): query methods and nullish values
(`val == null` is loose equality, true for both `null` and `undefined`)
store `null`; `json` type stores the JSON encoding, `urlencoded` the query
string encoding, `text`/`form` the value unchanged. `jsonStringify` models
the `JSON.stringify` builtin. -/
def dataSetter (jsonStringify qsStringify : JValue → String) (method : String)
    (t : RType) (val : JValue) : JValue :=
  if isQuery method || isNullish val then .null
  else
    match t with
    | .json => .str (jsonStringify val)
    | .urlencoded => .str (qsStringify val)
    | _ => val

/-- The caller-supplied `RequestOptions` (src 32-126), restricted to the
fields the claims exercise. `none` = the option was not given (for
`method` and `type` the source guards with truthiness, for the others with
`!== void 0`; the well-typed inputs coincide). -/
structure RequestOptions : Type where
  method : Option String := none
  headers : Option Headers := none
  type : Option RType := none
  dataType : Option RDataType := none
  contentType : Option ContentTypeOpt := none
  timeout : Option Int := none
  useXHR : Option Bool := none
  credentials : Option Bool := none

/-- The fields of a `Request` instance relevant to the claims, after
construction (src 474-509). -/
structure RequestState : Type where
  url : String
  data : JValue
  type : RType
  dataType : RDataType
  headers : Headers
  method : String
  timeout : Int
  useXHR : Bool
  cors : Bool
  credentials : Bool

/-- The field initializers of the `Request` class (src 474-491). -/
def initState : RequestState :=
  { url := ""
    data := .null
    type := .json
    dataType := .json
    headers := [("Accept", contentTypes .json), ("Content-Type", contentTypes .json)]
    method := "GET"
    timeout := 0
    useXHR := false
    cors := false
    credentials := false }

/-- Constructor step `if (options.method) this.method = options.method`
(src 494). -/
def applyMethodOpt (st : RequestState) : Option String → RequestState
  | some v => { st with method := v }
  | none => st

/-- Constructor step `if (options.type) this.type = options.type`
(src 495), running the `type` setter (src 557-564). -/
def applyTypeOpt (st : RequestState) : Option RType → RequestState
  | some v => { st with type := v, headers := typeSetterHeaders st.headers v }
  | none => st

/-- Constructor step `if (options.dataType) this.dataType = options.dataType`
(src 496), running the `dataType` setter (src 570-574). -/
def applyDataTypeOpt (st : RequestState) : Option RDataType → RequestState
  | some v =>
    { st with dataType := v
              headers := setHeader st.headers "Accept" (contentTypes (rtypeOfDataType v)) }
  | none => st

/-- Constructor step for `options.contentType` (src 497), running the
`contentType` setter (src 576-582). -/
def applyContentTypeOpt (st : RequestState) : Option ContentTypeOpt → RequestState
  | some v => { st with headers := applyContentTypeSetter st.headers v }
  | none => st

/-- Constructor step `this.timeout = Math.max(0, options.timeout)` (src 498). -/
def applyTimeoutOpt (st : RequestState) : Option Int → RequestState
  | some v => { st with timeout := max 0 v }
  | none => st

/-- Constructor step for `options.useXHR` (src 499). -/
def applyUseXHROpt (st : RequestState) : Option Bool → RequestState
  | some v => { st with useXHR := v }
  | none => st

/-- Constructor step for `options.credentials` (src 500). -/
def applyCredentialsOpt (st : RequestState) : Option Bool → RequestState
  | some v => { st with credentials := v }
  | none => st

/-- Constructor step `this.url = this.resolveURL(url, data)` (src 503):
store the resolved url and run the `url` setter's cross-origin check
(src 523-531). -/
def applyUrl (hostname : String) (st : RequestState) (resolved : String) :
    RequestState :=
  { st with url := resolved, cors := urlSetterCors hostname resolved st.cors }

/-- Constructor step `this.data = data` (src 504), running the `data`
setter (src 537-551) against the current method and type. -/
def applyData (jsonStringify qsStringify : JValue → String) (st : RequestState)
    (val : JValue) : RequestState :=
  { st with data := dataSetter jsonStringify qsStringify st.method st.type val }

/-- Constructor step `if (!this.cors) this.credentials = true` (src 507):
non-cross-origin requests force cookie credentials, overriding the
caller's option. -/
def forceCredentials (st : RequestState) : RequestState :=
  if st.cors then st else { st with credentials := true }

/-- Constructor step `if (options.headers) Object.assign(this.headers,
options.headers)` (src 508): caller headers are merged last. -/
def applyHeadersOpt (st : RequestState) : Option Headers → RequestState
  | some extra => { st with headers := assignHeaders st.headers extra }
  | none => st

/-- The `Request` constructor (src 493-509), in source order. `hostname`
is `window.location.hostname`; `jsonStringify`/`qsStringify` model the
external serializers. -/
def mkRequest (jsonStringify qsStringify : JValue → String) (hostname : String)
    (url0 : String) (data0 : JValue) (o : RequestOptions) : RequestState :=
  let st := applyMethodOpt initState o.method
  let st := applyTypeOpt st o.type
  let st := applyDataTypeOpt st o.dataType
  let st := applyContentTypeOpt st o.contentType
  let st := applyTimeoutOpt st o.timeout
  let st := applyUseXHROpt st o.useXHR
  let st := applyCredentialsOpt st o.credentials
  let st := applyUrl hostname st (resolveURL qsStringify st.method url0 data0)
  let st := applyData jsonStringify qsStringify st data0
  let st := forceCredentials st
  applyHeadersOpt st o.headers

/-- `requestByFetchApi` (src 613-615): the timeout race task is pushed
only when `this.timeout > 0`. -/
def fetchTimeoutTaskCreated (st : RequestState) : Bool :=
  decide (st.timeout > 0)

/-- `requestByXHR` (src 650-653): `xhr.timeout` and `ontimeout` are set
only when `this.timeout > 0`. -/
def xhrTimeoutConfigured (st : RequestState) : Bool :=
  decide (st.timeout > 0)

/-- `requestByFetchApi` settings body (src 605):
`this.data != null ? this.data : undefined`. -/
def fetchBody (st : RequestState) : JValue :=
  if isNullish st.data then .undefined else st.data

/-- The events the generic entry fires on the process-wide emitter. -/
inductive GlobalEvent : Type where
  | success : GlobalEvent
  | error : GlobalEvent
  | complete : GlobalEvent
deriving DecidableEq

/-- The generic entry `fetch` (src 191-206): given the settled outcome of
`req.request()`, the list of global events fired (in order) and the
outcome passed on to the caller. On success it fires `success` then
`complete` and returns the data; on failure it fires `error` then
`complete` and rethrows the same error. -/
def fetchEntry (outcome : Except JSException JValue) :
    List GlobalEvent × Except JSException JValue :=
  match outcome with
  | .ok d => ([.success, .complete], .ok d)
  | .error e => ([.error, .complete], .error e)

/-- `get` (src 222-229): the write it performs on the caller's options
object (`options.method = 'GET'`) before delegating to `fetch`. The
mutation of the caller-owned object is modelled as the object's state
after the call. -/
def getEntryOptions (o : RequestOptions) : RequestOptions :=
  { o with method := some "GET" }

/-- `head` (src 245-252): `options.method = 'HEAD'`. -/
def headEntryOptions (o : RequestOptions) : RequestOptions :=
  { o with method := some "HEAD" }

/-- `post` (src 268-271): `options.method = 'POST'`. -/
def postEntryOptions (o : RequestOptions) : RequestOptions :=
  { o with method := some "POST" }

/-- `put` (src 286-289): `options.method = 'PUT'`. -/
def putEntryOptions (o : RequestOptions) : RequestOptions :=
  { o with method := some "PUT" }

/-- `patch` (src 305-308): `options.method = 'PATCH'`. -/
def patchEntryOptions (o : RequestOptions) : RequestOptions :=
  { o with method := some "PATCH" }

/-- `del` (src 324-327): `options.method = 'DELETE'`. -/
def delEntryOptions (o : RequestOptions) : RequestOptions :=
  { o with method := some "DELETE" }

/-- `options` (src 342-345): `options.method = 'OPTIONS'`. -/
def optionsEntryOptions (o : RequestOptions) : RequestOptions :=
  { o with method := some "OPTIONS" }

/-- `upload` (src 363-370): `options.type = 'form'`, then delegation to
`post`, which performs its own `options.method = 'POST'` write. -/
def uploadEntryOptions (o : RequestOptions) : RequestOptions :=
  postEntryOptions { o with type := some RType.form }

/-! Helper lemmas describing each constructor step as a single record
update, so that the field lemmas about `mkRequest` compute. -/

theorem applyMethodOpt_spec (st : RequestState) (m : Option String) :
    applyMethodOpt st m = { st with method := m.getD st.method } := by
  cases m <;> rfl

theorem applyTypeOpt_spec (st : RequestState) (t : Option RType) :
    applyTypeOpt st t =
      { st with type := t.getD st.type
                headers := t.elim st.headers (typeSetterHeaders st.headers) } := by
  cases t <;> rfl

theorem applyDataTypeOpt_spec (st : RequestState) (d : Option RDataType) :
    applyDataTypeOpt st d =
      { st with dataType := d.getD st.dataType
                headers := d.elim st.headers (fun v =>
                  setHeader st.headers "Accept" (contentTypes (rtypeOfDataType v))) } := by
  cases d <;> rfl

theorem applyContentTypeOpt_spec (st : RequestState) (c : Option ContentTypeOpt) :
    applyContentTypeOpt st c =
      { st with headers := c.elim st.headers (applyContentTypeSetter st.headers) } := by
  cases c <;> rfl

theorem applyTimeoutOpt_spec (st : RequestState) (t : Option Int) :
    applyTimeoutOpt st t =
      { st with timeout := t.elim st.timeout (fun v => max 0 v) } := by
  cases t <;> rfl

theorem applyUseXHROpt_spec (st : RequestState) (b : Option Bool) :
    applyUseXHROpt st b = { st with useXHR := b.getD st.useXHR } := by
  cases b <;> rfl

theorem applyCredentialsOpt_spec (st : RequestState) (b : Option Bool) :
    applyCredentialsOpt st b = { st with credentials := b.getD st.credentials } := by
  cases b <;> rfl

theorem applyHeadersOpt_spec (st : RequestState) (h : Option Headers) :
    applyHeadersOpt st h =
      { st with headers := h.elim st.headers (assignHeaders st.headers) } := by
  cases h <;> rfl

theorem forceCredentials_spec (st : RequestState) :
    forceCredentials st =
      { st with credentials := if st.cors then st.credentials else true } := by
  obtain ⟨u, d, ty, dt, hs, m, t, x, c, cr⟩ := st
  by_cases hc : c <;> simp [forceCredentials, hc]

/-- The derived header map: the state of `this.headers` after the
constructor's option processing, before caller headers are merged. -/
def derivedHeaders (o : RequestOptions) : Headers :=
  let hs := initState.headers
  let hs := o.type.elim hs (typeSetterHeaders hs)
  let hs := o.dataType.elim hs (fun v =>
    setHeader hs "Accept" (contentTypes (rtypeOfDataType v)))
  o.contentType.elim hs (applyContentTypeSetter hs)

theorem mkRequest_method (j q : JValue → String) (h u : String) (d : JValue)
    (o : RequestOptions) :
    (mkRequest j q h u d o).method = o.method.getD "GET" := by
  simp [mkRequest, applyMethodOpt_spec, applyTypeOpt_spec, applyDataTypeOpt_spec,
    applyContentTypeOpt_spec, applyTimeoutOpt_spec, applyUseXHROpt_spec,
    applyCredentialsOpt_spec, applyHeadersOpt_spec, forceCredentials_spec,
    applyUrl, applyData, initState]

theorem mkRequest_timeout (j q : JValue → String) (h u : String) (d : JValue)
    (o : RequestOptions) :
    (mkRequest j q h u d o).timeout = o.timeout.elim 0 (fun v => max 0 v) := by
  simp [mkRequest, applyMethodOpt_spec, applyTypeOpt_spec, applyDataTypeOpt_spec,
    applyContentTypeOpt_spec, applyTimeoutOpt_spec, applyUseXHROpt_spec,
    applyCredentialsOpt_spec, applyHeadersOpt_spec, forceCredentials_spec,
    applyUrl, applyData, initState]

theorem mkRequest_url (j q : JValue → String) (h u : String) (d : JValue)
    (o : RequestOptions) :
    (mkRequest j q h u d o).url = resolveURL q (o.method.getD "GET") u d := by
  simp [mkRequest, applyMethodOpt_spec, applyTypeOpt_spec, applyDataTypeOpt_spec,
    applyContentTypeOpt_spec, applyTimeoutOpt_spec, applyUseXHROpt_spec,
    applyCredentialsOpt_spec, applyHeadersOpt_spec, forceCredentials_spec,
    applyUrl, applyData, initState]

theorem mkRequest_cors (j q : JValue → String) (h u : String) (d : JValue)
    (o : RequestOptions) :
    (mkRequest j q h u d o).cors =
      urlSetterCors h (resolveURL q (o.method.getD "GET") u d) false := by
  simp [mkRequest, applyMethodOpt_spec, applyTypeOpt_spec, applyDataTypeOpt_spec,
    applyContentTypeOpt_spec, applyTimeoutOpt_spec, applyUseXHROpt_spec,
    applyCredentialsOpt_spec, applyHeadersOpt_spec, forceCredentials_spec,
    applyUrl, applyData, initState]

theorem mkRequest_credentials (j q : JValue → String) (h u : String) (d : JValue)
    (o : RequestOptions) :
    (mkRequest j q h u d o).credentials =
      (if urlSetterCors h (resolveURL q (o.method.getD "GET") u d) false then
        o.credentials.getD false
      else true) := by
  simp [mkRequest, applyMethodOpt_spec, applyTypeOpt_spec, applyDataTypeOpt_spec,
    applyContentTypeOpt_spec, applyTimeoutOpt_spec, applyUseXHROpt_spec,
    applyCredentialsOpt_spec, applyHeadersOpt_spec, forceCredentials_spec,
    applyUrl, applyData, initState]

theorem mkRequest_data (j q : JValue → String) (h u : String) (d : JValue)
    (o : RequestOptions) :
    (mkRequest j q h u d o).data =
      dataSetter j q (o.method.getD "GET") (o.type.getD RType.json) d := by
  simp [mkRequest, applyMethodOpt_spec, applyTypeOpt_spec, applyDataTypeOpt_spec,
    applyContentTypeOpt_spec, applyTimeoutOpt_spec, applyUseXHROpt_spec,
    applyCredentialsOpt_spec, applyHeadersOpt_spec, forceCredentials_spec,
    applyUrl, applyData, initState]

theorem mkRequest_headers (j q : JValue → String) (h u : String) (d : JValue)
    (o : RequestOptions) :
    (mkRequest j q h u d o).headers =
      o.headers.elim (derivedHeaders o) (assignHeaders (derivedHeaders o)) := by
  simp [mkRequest, applyMethodOpt_spec, applyTypeOpt_spec, applyDataTypeOpt_spec,
    applyContentTypeOpt_spec, applyTimeoutOpt_spec, applyUseXHROpt_spec,
    applyCredentialsOpt_spec, applyHeadersOpt_spec, forceCredentials_spec,
    applyUrl, applyData, initState, derivedHeaders]

/-! Lookup lemmas about association lists and the header-map operations. -/

theorem alookup_append {β : Type} (l₁ l₂ : List (String × β)) (k : String) :
    alookup k (l₁ ++ l₂) = (alookup k l₁).or (alookup k l₂) := by
  induction l₁ with
  | nil => simp [alookup]
  | cons p rest ih =>
    obtain ⟨k0, v0⟩ := p
    by_cases hk : k = k0 <;> simp [alookup, hk, ih]

theorem alookup_replaceEntry_self {β : Type} (l : List (String × β)) (k : String)
    (x : β) (hmem : (alookup k l).isSome = true) :
    alookup k (replaceEntry k x l) = some x := by
  induction l with
  | nil => simp [alookup] at hmem
  | cons p rest ih =>
    obtain ⟨k0, v0⟩ := p
    by_cases hk : k0 = k
    · subst hk
      simp [replaceEntry, alookup]
    · have hk2 : ¬k = k0 := fun he => hk he.symm
      simp only [alookup, if_neg hk2] at hmem
      simp only [replaceEntry, if_neg hk, alookup, if_neg hk2]
      exact ih hmem

theorem alookup_replaceEntry_ne {β : Type} (l : List (String × β)) (k k' : String)
    (x : β) (hne : k' ≠ k) :
    alookup k' (replaceEntry k x l) = alookup k' l := by
  induction l with
  | nil => simp [replaceEntry]
  | cons p rest ih =>
    obtain ⟨k0, v0⟩ := p
    by_cases hk : k0 = k
    · subst hk
      simp only [replaceEntry, if_pos rfl, alookup, if_neg hne]
      exact ih
    · by_cases hq : k' = k0 <;> simp [replaceEntry, alookup, hq, if_neg hk, ih]

theorem alookup_setHeader_self (hs : Headers) (k v : String) :
    alookup k (setHeader hs k v) = some v := by
  unfold setHeader
  by_cases hmem : (alookup k hs).isSome
  · rw [if_pos hmem]
    exact alookup_replaceEntry_self hs k v hmem
  · rw [if_neg hmem, alookup_append]
    rcases hl : alookup k hs with _ | w
    · simp [alookup]
    · simp [hl] at hmem

theorem alookup_setHeader_ne (hs : Headers) (k k' v : String) (hne : k' ≠ k) :
    alookup k' (setHeader hs k v) = alookup k' hs := by
  unfold setHeader
  by_cases hmem : (alookup k hs).isSome
  · rw [if_pos hmem]
    exact alookup_replaceEntry_ne hs k k' v hne
  · rw [if_neg hmem, alookup_append]
    simp [alookup, hne]

theorem alookup_removeHeader_self (hs : Headers) (k : String) :
    alookup k (removeHeader hs k) = none := by
  induction hs with
  | nil => rfl
  | cons p rest ih =>
    obtain ⟨k0, v0⟩ := p
    by_cases hk : k0 = k
    · subst hk
      simpa [removeHeader, List.filter] using ih
    · have hk2 : ¬k = k0 := fun he => hk he.symm
      simpa [removeHeader, List.filter, hk, alookup, hk2] using ih

theorem alookup_removeHeader_ne (hs : Headers) (k k' : String) (hne : k' ≠ k) :
    alookup k' (removeHeader hs k) = alookup k' hs := by
  induction hs with
  | nil => rfl
  | cons p rest ih =>
    obtain ⟨k0, v0⟩ := p
    by_cases hk : k0 = k
    · subst hk
      have h1 : removeHeader ((k0, v0) :: rest) k0 = removeHeader rest k0 := by
        simp [removeHeader, List.filter]
      have h2 : alookup k' ((k0, v0) :: rest) = alookup k' rest := by
        simp [alookup, hne]
      rw [h1, h2, ih]
    · by_cases hq : k' = k0
      · simp [removeHeader, List.filter, hk, alookup, hq]
      · simpa [removeHeader, List.filter, hk, alookup, hq] using ih

theorem alookup_assignHeaders_absent (hs extra : Headers) (k : String)
    (habs : alookup k extra = none) :
    alookup k (assignHeaders hs extra) = alookup k hs := by
  induction extra generalizing hs with
  | nil => rfl
  | cons p rest ih =>
    obtain ⟨k0, v0⟩ := p
    by_cases hq : k = k0
    · simp [alookup, hq] at habs
    · simp only [alookup, if_neg hq] at habs
      simp only [assignHeaders, List.foldl_cons] at ih ⊢
      rw [ih (setHeader hs k0 v0) habs, alookup_setHeader_ne hs k0 k v0 hq]

theorem alookup_eq_none_of_not_mem_keys {β : Type} (l : List (String × β))
    (k : String) (h : k ∉ l.map Prod.fst) : alookup k l = none := by
  induction l with
  | nil => rfl
  | cons p rest ih =>
    obtain ⟨k0, v0⟩ := p
    simp only [List.map_cons, List.mem_cons] at h
    push_neg at h
    simp only [alookup, if_neg h.1]
    exact ih h.2

theorem alookup_assignHeaders_present (hs extra : Headers) (k v : String)
    (hnd : (extra.map Prod.fst).Nodup) (hfound : alookup k extra = some v) :
    alookup k (assignHeaders hs extra) = some v := by
  induction extra generalizing hs with
  | nil => simp [alookup] at hfound
  | cons p rest ih =>
    obtain ⟨k0, v0⟩ := p
    simp only [List.map_cons, List.nodup_cons] at hnd
    by_cases hq : k = k0
    · subst hq
      simp only [alookup, if_pos rfl] at hfound
      have hrest : alookup k rest = none :=
        alookup_eq_none_of_not_mem_keys rest k hnd.1
      simp only [assignHeaders, List.foldl_cons]
      have habs := alookup_assignHeaders_absent (setHeader hs k v0) rest k hrest
      simp only [assignHeaders] at habs
      rw [habs, alookup_setHeader_self]
      exact hfound
    · simp only [alookup, if_neg hq] at hfound
      simp only [assignHeaders, List.foldl_cons] at ih ⊢
      exact ih (setHeader hs k0 v0) hnd.2 hfound

/-- A property write on an object yields an object whose keys read back
as expected: the written key holds the new value, every other key is
unchanged. -/
theorem setProp_self_lookup (fs : List (String × JValue)) (k : String)
    (x : JValue) :
    ∃ gs : List (String × JValue),
      setProp (JValue.obj fs) k x = JValue.obj gs ∧
      alookup k gs = some x ∧
      ∀ k2, k2 ≠ k → alookup k2 gs = alookup k2 fs := by
  by_cases hmem : (alookup k fs).isSome
  · refine ⟨replaceEntry k x fs, ?_, alookup_replaceEntry_self fs k x hmem,
      fun k2 h2 => alookup_replaceEntry_ne fs k k2 x h2⟩
    show (if (alookup k fs).isSome then JValue.obj (replaceEntry k x fs)
      else JValue.obj (fs ++ [(k, x)])) = JValue.obj (replaceEntry k x fs)
    rw [if_pos hmem]
  · refine ⟨fs ++ [(k, x)], ?_, ?_, ?_⟩
    · show (if (alookup k fs).isSome then JValue.obj (replaceEntry k x fs)
        else JValue.obj (fs ++ [(k, x)])) = JValue.obj (fs ++ [(k, x)])
      rw [if_neg hmem]
    · rw [alookup_append]
      cases hl : alookup k fs with
      | none => simp [alookup]
      | some w => rw [hl] at hmem; simp at hmem
    · intro k2 h2
      rw [alookup_append]
      cases hl : alookup k2 fs with
      | none => simp [alookup, h2]
      | some w => simp

/-- The `if (!v.k) v.k = d` idiom of `defaultParseResponse` (fill a FALSY
field, missing included, with a default), characterized by lookups on the
result. -/
theorem fill_falsy_lookup (fs : List (String × JValue)) (k : String)
    (d : JValue) :
    ∃ gs : List (String × JValue),
      (if truthy ((alookup k fs).getD JValue.undefined) then JValue.obj fs
       else setProp (JValue.obj fs) k d) = JValue.obj gs ∧
      alookup k gs = some
        (if truthy ((alookup k fs).getD JValue.undefined) then
          (alookup k fs).getD JValue.undefined
        else d) ∧
      ∀ k2, k2 ≠ k → alookup k2 gs = alookup k2 fs := by
  by_cases ht : truthy ((alookup k fs).getD JValue.undefined)
  · refine ⟨fs, by rw [if_pos ht], ?_, fun k2 _ => rfl⟩
    rw [if_pos ht]
    cases hl : alookup k fs with
    | none => rw [hl] at ht; simp [truthy] at ht
    | some w => rfl
  · obtain ⟨gs, hset, hself, hpres⟩ := setProp_self_lookup fs k d
    refine ⟨gs, ?_, ?_, hpres⟩
    · rw [if_neg ht]; exact hset
    · rw [if_neg ht]; exact hself

/-- The `if (v.k === void 0) v.k = null` idiom of `defaultParseResponse`
(fill a strictly-undefined field, missing included, with null),
characterized by lookups on the result. -/
theorem fill_undefined_lookup (fs : List (String × JValue)) (k : String) :
    ∃ gs : List (String × JValue),
      (if isUndefined ((alookup k fs).getD JValue.undefined) then
        setProp (JValue.obj fs) k JValue.null
       else JValue.obj fs) = JValue.obj gs ∧
      alookup k gs = some
        (if isUndefined ((alookup k fs).getD JValue.undefined) then JValue.null
         else (alookup k fs).getD JValue.undefined) ∧
      ∀ k2, k2 ≠ k → alookup k2 gs = alookup k2 fs := by
  by_cases hu : isUndefined ((alookup k fs).getD JValue.undefined)
  · obtain ⟨gs, hset, hself, hpres⟩ := setProp_self_lookup fs k JValue.null
    refine ⟨gs, ?_, ?_, hpres⟩
    · rw [if_pos hu]; exact hset
    · rw [if_pos hu]; exact hself
  · refine ⟨fs, by rw [if_neg hu], ?_, fun k2 _ => rfl⟩
    rw [if_neg hu]
    cases hl : alookup k fs with
    | none => rw [hl] at hu; simp [isUndefined] at hu
    | some w => rfl

/-- With `form` type and no `contentType` option, the derived header map
carries no `Content-Type` entry: the `type` setter removed it and the
`dataType` setter only touches `Accept`. -/
theorem derivedHeaders_form_noCT (o : RequestOptions)
    (hform : o.type = some RType.form) (hct : o.contentType = none) :
    alookup "Content-Type" (derivedHeaders o) = none := by
  unfold derivedHeaders
  rw [hform, hct]
  simp only [Option.elim]
  have hbase : alookup "Content-Type"
      (typeSetterHeaders initState.headers RType.form) = none := by
    simp only [typeSetterHeaders, applyContentTypeSetter]
    exact alookup_removeHeader_self initState.headers "Content-Type"
  cases hdt : o.dataType with
  | none => simpa [Option.elim] using hbase
  | some dv =>
    simp only [Option.elim]
    rw [alookup_setHeader_ne _ "Accept" "Content-Type" _ (by decide)]
    exact hbase

/-- C6 (counterexample): the generic transport-error handler's rejection
carries status 500 and code "1000" as the claim states, but its message is
the source's misspelled constant `'Unknow Error'`, not `"Unknown Error"`. -/
theorem c6_counterexample :
    onXHRErrorRejection.status = JValue.num 500 ∧
    onXHRErrorRejection.code = JValue.str "1000" ∧
    onXHRErrorRejection.message ≠ "Unknown Error" := by
  refine ⟨rfl, rfl, ?_⟩
  decide

/-- C6 (amended): whenever the legacy transport's error handler fires, the
call rejects with a failure carrying status 500, code "1000", and message
"Unknow Error" (sic, the source's spelling). -/
theorem c6_amended :
    onXHRErrorRejection =
      { status := JValue.num 500, code := JValue.str "1000",
        message := "Unknow Error", stack := none } := rfl

/-- C8: for every terminal outcome handed to the generic entry, exactly
one `complete` notification fires, it fires last (after the
outcome-specific `success`/`error` notification), and on failure the same
error is rethrown so the caller receives a rejected outcome. -/
theorem c8_fetch_entry_events (outcome : Except JSException JValue) :
    ((fetchEntry outcome).1.count GlobalEvent.complete = 1) ∧
    ((fetchEntry outcome).1.getLast? = some GlobalEvent.complete) ∧
    (∀ d, outcome = Except.ok d →
      (fetchEntry outcome).1 = [GlobalEvent.success, GlobalEvent.complete] ∧
      (fetchEntry outcome).2 = Except.ok d) ∧
    (∀ e, outcome = Except.error e →
      (fetchEntry outcome).1 = [GlobalEvent.error, GlobalEvent.complete] ∧
      (fetchEntry outcome).2 = Except.error e) := by
  cases outcome with
  | ok d =>
    refine ⟨?_, ?_, ?_, ?_⟩
    · show List.count GlobalEvent.complete
        [GlobalEvent.success, GlobalEvent.complete] = 1
      decide
    · show [GlobalEvent.success, GlobalEvent.complete].getLast? =
        some GlobalEvent.complete
      decide
    · intro d2 hd
      cases hd
      exact ⟨rfl, rfl⟩
    · intro e he
      cases he
  | error e =>
    refine ⟨?_, ?_, ?_, ?_⟩
    · show List.count GlobalEvent.complete
        [GlobalEvent.error, GlobalEvent.complete] = 1
      decide
    · show [GlobalEvent.error, GlobalEvent.complete].getLast? =
        some GlobalEvent.complete
      decide
    · intro d hd
      cases hd
    · intro e2 he
      cases he
      exact ⟨rfl, rfl⟩

/-- C8 (witness): the concrete event traces for one success and one
failure outcome. -/
theorem c8_fetch_entry_events_witness :
    (fetchEntry (Except.ok (JValue.str "payload"))).1 =
      [GlobalEvent.success, GlobalEvent.complete] ∧
    (fetchEntry (Except.error (JSException.reqError onXHRErrorRejection))).1 =
      [GlobalEvent.error, GlobalEvent.complete] ∧
    (fetchEntry (Except.error (JSException.reqError onXHRErrorRejection))).2 =
      Except.error (JSException.reqError onXHRErrorRejection) :=
  ⟨((c8_fetch_entry_events (Except.ok (JValue.str "payload"))).2.2.1 _ rfl).1,
   ((c8_fetch_entry_events
      (Except.error (JSException.reqError onXHRErrorRejection))).2.2.2 _ rfl).1,
   ((c8_fetch_entry_events
      (Except.error (JSException.reqError onXHRErrorRejection))).2.2.2 _ rfl).2⟩

/-- C9: every verb-specific entry writes its fixed verb into the
caller-supplied options object before delegating (observable by a caller
reusing the object), and `upload` additionally writes `type = form` (its
delegation to `post` then writes `method = POST`); the entries touch no
other option field. -/
theorem c9_entry_option_mutation (o : RequestOptions) :
    (getEntryOptions o).method = some "GET" ∧
    (headEntryOptions o).method = some "HEAD" ∧
    (postEntryOptions o).method = some "POST" ∧
    (putEntryOptions o).method = some "PUT" ∧
    (patchEntryOptions o).method = some "PATCH" ∧
    (delEntryOptions o).method = some "DELETE" ∧
    (optionsEntryOptions o).method = some "OPTIONS" ∧
    (uploadEntryOptions o).type = some RType.form ∧
    (uploadEntryOptions o).method = some "POST" ∧
    (getEntryOptions o).headers = o.headers ∧
    (getEntryOptions o).type = o.type ∧
    (uploadEntryOptions o).headers = o.headers :=
  ⟨rfl, rfl, rfl, rfl, rfl, rfl, rfl, rfl, rfl, rfl, rfl, rfl⟩

/-- C10: a negative `timeout` option is clamped to 0 by `Math.max(0, ...)`
at construction (no error is raised: the constructor is total), and with
timeout 0 neither transport ever creates a timeout task. -/
theorem c10_negative_timeout (j q : JValue → String) (h u : String)
    (d : JValue) (o : RequestOptions) (t : Int)
    (ht : o.timeout = some t) (hneg : t < 0) :
    (mkRequest j q h u d o).timeout = 0 ∧
    fetchTimeoutTaskCreated (mkRequest j q h u d o) = false ∧
    xhrTimeoutConfigured (mkRequest j q h u d o) = false := by
  have htime : (mkRequest j q h u d o).timeout = 0 := by
    rw [mkRequest_timeout, ht]
    simp only [Option.elim]
    omega
  refine ⟨htime, ?_, ?_⟩
  · simp [fetchTimeoutTaskCreated, htime]
  · simp [xhrTimeoutConfigured, htime]

/-- C10 (witness): `timeout: -7` yields timeout 0 and no timeout task on
either transport. -/
theorem c10_negative_timeout_witness :
    (mkRequest (fun _ => "") (fun _ => "") "example.com" "/api" JValue.null
        { timeout := some (-7) }).timeout = 0 ∧
    fetchTimeoutTaskCreated (mkRequest (fun _ => "") (fun _ => "")
        "example.com" "/api" JValue.null { timeout := some (-7) }) = false ∧
    xhrTimeoutConfigured (mkRequest (fun _ => "") (fun _ => "")
        "example.com" "/api" JValue.null { timeout := some (-7) }) = false :=
  c10_negative_timeout (fun _ => "") (fun _ => "") "example.com" "/api"
    JValue.null { timeout := some (-7) } (-7) rfl (by decide)

/-- C3: cross-origin classification is exactly "the absolute-URL pattern
matches the resolved URL and the host it extracts differs from
`window.location.hostname`", and whenever the extracted host equals the
page host the credentials flag is forced to true regardless of the
caller's `credentials` option. Note the extracted host is produced by the
lazy capture group of `ABSOLUTE_PATH_REG`, which is always the empty
string on a match (see `absolutePathMatch`), so in practice every
absolute URL with a nonempty page hostname classifies as cross-origin. -/
theorem c3_same_origin_credentials (j q : JValue → String)
    (hostname u : String) (d : JValue) (o : RequestOptions) :
    ((mkRequest j q hostname u d o).cors =
      (match absolutePathMatch (mkRequest j q hostname u d o).url with
       | some dom => decide (dom ≠ hostname)
       | none => false)) ∧
    (absolutePathMatch (mkRequest j q hostname u d o).url = some hostname →
      (mkRequest j q hostname u d o).credentials = true) := by
  have hcors : (mkRequest j q hostname u d o).cors =
      (match absolutePathMatch (mkRequest j q hostname u d o).url with
       | some dom => decide (dom ≠ hostname)
       | none => false) := by
    rw [mkRequest_cors, mkRequest_url]
    unfold urlSetterCors
    cases habs : absolutePathMatch (resolveURL q (o.method.getD "GET") u d) with
    | none => simp
    | some dom => by_cases hd : dom ≠ hostname <;> simp [hd]
  refine ⟨hcors, ?_⟩
  intro hmatch
  rw [mkRequest_credentials]
  rw [mkRequest_url] at hmatch
  unfold urlSetterCors
  rw [hmatch]
  simp

/-- C3 (witness): a resolved URL whose pattern-extracted host equals the
page host has credentials forced to true even though the caller passed
`credentials: false`. -/
theorem c3_same_origin_credentials_witness :
    (mkRequest (fun _ => "") (fun _ => "") "" "//svc" JValue.null
      { credentials := some false }).credentials = true :=
  (c3_same_origin_credentials (fun _ => "") (fun _ => "") "" "//svc"
    JValue.null { credentials := some false }).2 (by decide)

/-- C4 (counterexample): on a `form`-type call whose caller supplies a
`Content-Type` header, the final header set DOES contain `Content-Type`
(with the caller's value), because caller headers are merged last via
`Object.assign` after the `type` setter removed the derived header; the
claim's "no Content-Type regardless of caller-supplied headers" is
false. -/
theorem c4_counterexample :
    alookup "Content-Type"
      (mkRequest (fun _ => "") (fun _ => "") "example.com" "/api" JValue.null
        { type := some RType.form,
          headers := some [("Content-Type", "text/csv")] }).headers
      = some "text/csv" := by decide

/-- C4 (amended): on a `form`-type call with no `contentType` option and
no caller-supplied `Content-Type` header, the final header set has no
`Content-Type`; and caller-supplied headers are merged last and win: any
caller header pair survives verbatim into the final set. -/
theorem c4_amended (j q : JValue → String) (h u : String) (d : JValue)
    (o : RequestOptions)
    (hform : o.type = some RType.form)
    (hct : o.contentType = none)
    (hnoCT : alookup "Content-Type" (o.headers.getD []) = none) :
    alookup "Content-Type" (mkRequest j q h u d o).headers = none ∧
    (∀ k v, ((o.headers.getD []).map Prod.fst).Nodup →
      alookup k (o.headers.getD []) = some v →
      alookup k (mkRequest j q h u d o).headers = some v) := by
  have hderived := derivedHeaders_form_noCT o hform hct
  rw [mkRequest_headers]
  cases hh : o.headers with
  | none =>
    refine ⟨by simpa [Option.elim] using hderived, ?_⟩
    intro k v _ hfound
    simp [alookup] at hfound
  | some extra =>
    rw [hh] at hnoCT
    simp only [Option.getD] at hnoCT
    refine ⟨?_, ?_⟩
    · simp only [Option.elim]
      rw [alookup_assignHeaders_absent _ _ _ hnoCT]
      exact hderived
    · intro k v hnd hfound
      simp only [Option.getD] at hnd hfound
      simp only [Option.elim]
      exact alookup_assignHeaders_present _ _ _ _ hnd hfound

/-- C4 (witness): a `form` call with caller header `X-Token` ends with no
`Content-Type` header while the caller header survives. -/
theorem c4_amended_witness :
    alookup "Content-Type"
      (mkRequest (fun _ => "") (fun _ => "") "example.com" "/api" JValue.null
        { type := some RType.form,
          headers := some [("X-Token", "t0ken")] }).headers = none ∧
    alookup "X-Token"
      (mkRequest (fun _ => "") (fun _ => "") "example.com" "/api" JValue.null
        { type := some RType.form,
          headers := some [("X-Token", "t0ken")] }).headers = some "t0ken" :=
  ⟨(c4_amended (fun _ => "") (fun _ => "") "example.com" "/api" JValue.null
      { type := some RType.form, headers := some [("X-Token", "t0ken")] }
      rfl rfl (by decide)).1,
   (c4_amended (fun _ => "") (fun _ => "") "example.com" "/api" JValue.null
      { type := some RType.form, headers := some [("X-Token", "t0ken")] }
      rfl rfl (by decide)).2 "X-Token" "t0ken" (by decide) (by decide)⟩

/-- C7: for query methods (GET/HEAD), a non-empty string datum is appended
to the URL as-is prefixed with `?` unless it already starts with `?` (no
doubled separator); a structured mapping is serialized by the query-string
serializer and appended after `?` (provided the serializer's output does
not itself start with `?`); and the stored request body is always null, so
the fetch transport's body setting is `undefined` (no body is sent). -/
theorem c7_query_url_and_body (j q : JValue → String) (method : String)
    (hm : method = "GET" ∨ method = "HEAD") (url : String) :
    (∀ s : String, s ≠ "" →
      resolveURL q method url (.str s) =
        url ++ (if strStartsWith s "?" then s else "?" ++ s)) ∧
    (∀ fs : List (String × JValue),
      strStartsWith (q (.obj fs)) "?" = false →
      resolveURL q method url (.obj fs) = url ++ ("?" ++ q (.obj fs))) ∧
    (∀ (h u : String) (d : JValue) (o : RequestOptions),
      o.method = some method →
      (mkRequest j q h u d o).data = JValue.null ∧
      fetchBody (mkRequest j q h u d o) = JValue.undefined) := by
  have hquery : isQuery method = true := by
    rcases hm with hm | hm <;> simp [isQuery, hm]
  refine ⟨?_, ?_, ?_⟩
  · intro s hs
    simp [resolveURL, hquery, truthy, hs]
  · intro fs hq
    simp [resolveURL, hquery, truthy, hq]
  · intro h u d o hmo
    have hdata : (mkRequest j q h u d o).data = JValue.null := by
      rw [mkRequest_data, hmo]
      simp only [Option.getD]
      simp [dataSetter, hquery]
    exact ⟨hdata, by simp [fetchBody, hdata, isNullish]⟩

/-- C7 (witness): concrete resolutions with a mapping, with an
already-prefixed query string, and the null body of a GET call. -/
theorem c7_query_url_and_body_witness :
    resolveURL (fun _ => "a=1&b=2") "GET" "/api"
      (JValue.obj [("a", JValue.num 1)]) = "/api?a=1&b=2" ∧
    resolveURL (fun _ => "") "GET" "/api" (JValue.str "?q=7") = "/api?q=7" ∧
    (mkRequest (fun _ => "x") (fun _ => "a=1&b=2") "h" "/api"
      (JValue.str "?q=7") { method := some "GET" }).data = JValue.null :=
  ⟨((c7_query_url_and_body (fun _ => "x") (fun _ => "a=1&b=2") "GET"
      (Or.inl rfl) "/api").2.1 [("a", JValue.num 1)] (by decide)).trans
    (by decide),
   ((c7_query_url_and_body (fun _ => "x") (fun _ => "") "GET"
      (Or.inl rfl) "/api").1 "?q=7" (by decide)).trans (by decide),
   ((c7_query_url_and_body (fun _ => "x") (fun _ => "a=1&b=2") "GET"
      (Or.inl rfl) "/api").2.2 "h" "/api" (JValue.str "?q=7")
      { method := some "GET" } rfl).1⟩

/-- C2 (counterexample): a status-successful `json` response whose body is
JSON `null` is NOT wrapped by the default normalizer: `null` has no
`success`/`data` own properties, but `null.hasOwnProperty` throws a
TypeError, so the call rejects with that TypeError instead of resolving
with `null` as data. -/
theorem c2_counterexample :
    defaultParseResponse JValue.null = Except.error JSException.typeError ∧
    parseResponse RDataType.json none none JValue.null ≠
      Except.ok JValue.null := by
  refine ⟨rfl, ?_⟩
  rw [show parseResponse RDataType.json none none JValue.null =
    Except.error JSException.typeError from rfl]
  exact fun hc => Except.noConfusion hc

/-- C2 (amended): for every status-successful `json` response whose body
is not `null`/`undefined`, with no per-call and no global parser: if the
body owns both a `success` and a `data` property, the default normalizer
returns it with a falsy `statusCode` (missing included) replaced by 200,
a falsy `errorCode` (missing included) replaced by 0, a
strictly-undefined `errorMessage`/`errorStack` (missing included)
replaced by null, and every other field — `success` and `data` included —
read back unchanged; any other such body is wrapped as
`{success: true, statusCode: 200, errorCode: 0, errorMessage: null,
errorStack: null, data: body}`, so it resolves to exactly the body as
data. -/
theorem c2_amended :
    (∀ (fs : List (String × JValue)) (sv dv : JValue),
      alookup "success" fs = some sv →
      alookup "data" fs = some dv →
      ((defaultParseResponse (JValue.obj fs) >>= fun r =>
          getProp r "statusCode") =
        Except.ok (if truthy (jprop (JValue.obj fs) "statusCode") then
          jprop (JValue.obj fs) "statusCode" else JValue.num 200)) ∧
      ((defaultParseResponse (JValue.obj fs) >>= fun r =>
          getProp r "errorCode") =
        Except.ok (if truthy (jprop (JValue.obj fs) "errorCode") then
          jprop (JValue.obj fs) "errorCode" else JValue.num 0)) ∧
      ((defaultParseResponse (JValue.obj fs) >>= fun r =>
          getProp r "errorMessage") =
        Except.ok (if isUndefined (jprop (JValue.obj fs) "errorMessage") then
          JValue.null else jprop (JValue.obj fs) "errorMessage")) ∧
      ((defaultParseResponse (JValue.obj fs) >>= fun r =>
          getProp r "errorStack") =
        Except.ok (if isUndefined (jprop (JValue.obj fs) "errorStack") then
          JValue.null else jprop (JValue.obj fs) "errorStack")) ∧
      (∀ k : String, k ≠ "statusCode" → k ≠ "errorCode" →
        k ≠ "errorMessage" → k ≠ "errorStack" →
        (defaultParseResponse (JValue.obj fs) >>= fun r => getProp r k) =
          Except.ok (jprop (JValue.obj fs) k))) ∧
    (∀ body : JValue, isNullish body = false →
      (jhasOwn body "success" && jhasOwn body "data") = false →
      defaultParseResponse body =
        Except.ok (JValue.obj
          [("success", JValue.bool true), ("statusCode", JValue.num 200),
           ("errorCode", JValue.num 0), ("errorMessage", JValue.null),
           ("errorStack", JValue.null), ("data", body)]) ∧
      parseResponse RDataType.json none none body = Except.ok body) := by
  constructor
  · intro fs sv dv hsuc hdat
    obtain ⟨gs1, e1, l1, p1⟩ := fill_falsy_lookup fs "statusCode" (JValue.num 200)
    obtain ⟨gs2, e2, l2, p2⟩ := fill_falsy_lookup gs1 "errorCode" (JValue.num 0)
    obtain ⟨gs3, e3, l3, p3⟩ := fill_undefined_lookup gs2 "errorMessage"
    obtain ⟨gs4, e4, l4, p4⟩ := fill_undefined_lookup gs3 "errorStack"
    have hrun : defaultParseResponse (JValue.obj fs) =
        Except.ok (JValue.obj gs4) := by
      unfold defaultParseResponse
      simp only [hasOwnProp, getProp, hsuc, hdat, Option.isSome_some,
        Bool.and_self, Bind.bind, Except.bind, Pure.pure, Except.pure,
        if_true, Option.getD_some, REQUEST_SUCCESS_STATUS]
      rw [e1]
      simp only [getProp, Except.bind]
      rw [e2]
      simp only [getProp, Except.bind]
      rw [e3]
      simp only [getProp, Except.bind]
      rw [e4]
    rw [p1 "errorCode" (by decide)] at l2
    rw [p2 "errorMessage" (by decide), p1 "errorMessage" (by decide)] at l3
    rw [p3 "errorStack" (by decide), p2 "errorStack" (by decide),
      p1 "errorStack" (by decide)] at l4
    refine ⟨?_, ?_, ?_, ?_, ?_⟩
    · rw [hrun]
      show Except.ok ((alookup "statusCode" gs4).getD JValue.undefined) = _
      rw [p4 "statusCode" (by decide), p3 "statusCode" (by decide),
        p2 "statusCode" (by decide), l1]
      rfl
    · rw [hrun]
      show Except.ok ((alookup "errorCode" gs4).getD JValue.undefined) = _
      rw [p4 "errorCode" (by decide), p3 "errorCode" (by decide), l2]
      rfl
    · rw [hrun]
      show Except.ok ((alookup "errorMessage" gs4).getD JValue.undefined) = _
      rw [p4 "errorMessage" (by decide), l3]
      rfl
    · rw [hrun]
      show Except.ok ((alookup "errorStack" gs4).getD JValue.undefined) = _
      rw [l4]
      rfl
    · intro k h1 h2 h3 h4
      rw [hrun]
      show Except.ok ((alookup k gs4).getD JValue.undefined) = _
      rw [p4 k h4, p3 k h3, p2 k h2, p1 k h1]
      rfl
  · intro body hnn hown
    have hdefault : defaultParseResponse body =
        Except.ok (JValue.obj
          [("success", JValue.bool true), ("statusCode", JValue.num 200),
           ("errorCode", JValue.num 0), ("errorMessage", JValue.null),
           ("errorStack", JValue.null), ("data", body)]) := by
      cases body with
      | undefined => simp [isNullish] at hnn
      | null => simp [isNullish] at hnn
      | bool b => rfl
      | num n => rfl
      | str s => rfl
      | obj fs =>
        simp only [jhasOwn] at hown
        simp [defaultParseResponse, hasOwnProp, hown, REQUEST_SUCCESS_STATUS,
          Bind.bind, Except.bind, Pure.pure, Except.pure]
    refine ⟨hdefault, ?_⟩
    simp [parseResponse, hdefault, getProp, alookup, truthy,
      Bind.bind, Except.bind, Pure.pure, Except.pure]

/-- C2 (witness): on a conforming body with a present-but-falsy
`statusCode` of 0 and no `errorMessage`, the normalizer's result reads
back `statusCode` 200, `errorMessage` null, and the untouched `data`
field; the spec's example body `{id:"1234",name:"test",age:32}` (no
`success`/`data` wrapper) resolves to exactly that object as data. -/
theorem c2_amended_witness :
    (defaultParseResponse (JValue.obj
        [("success", JValue.bool true), ("data", JValue.num 7),
         ("statusCode", JValue.num 0)]) >>= fun r =>
      getProp r "statusCode") = Except.ok (JValue.num 200) ∧
    (defaultParseResponse (JValue.obj
        [("success", JValue.bool true), ("data", JValue.num 7),
         ("statusCode", JValue.num 0)]) >>= fun r =>
      getProp r "errorMessage") = Except.ok JValue.null ∧
    (defaultParseResponse (JValue.obj
        [("success", JValue.bool true), ("data", JValue.num 7),
         ("statusCode", JValue.num 0)]) >>= fun r =>
      getProp r "data") = Except.ok (JValue.num 7) ∧
    parseResponse RDataType.json none none
      (JValue.obj [("id", JValue.str "1234"), ("name", JValue.str "test"),
        ("age", JValue.num 32)]) =
      Except.ok (JValue.obj [("id", JValue.str "1234"),
        ("name", JValue.str "test"), ("age", JValue.num 32)]) :=
  ⟨((c2_amended.1 [("success", JValue.bool true), ("data", JValue.num 7),
      ("statusCode", JValue.num 0)] (JValue.bool true) (JValue.num 7)
      rfl rfl).1).trans rfl,
   ((c2_amended.1 [("success", JValue.bool true), ("data", JValue.num 7),
      ("statusCode", JValue.num 0)] (JValue.bool true) (JValue.num 7)
      rfl rfl).2.2.1).trans rfl,
   ((c2_amended.1 [("success", JValue.bool true), ("data", JValue.num 7),
      ("statusCode", JValue.num 0)] (JValue.bool true) (JValue.num 7)
      rfl rfl).2.2.2.2 "data" (by decide) (by decide) (by decide)
      (by decide)).trans rfl,
   (c2_amended.2 (JValue.obj [("id", JValue.str "1234"),
      ("name", JValue.str "test"), ("age", JValue.num 32)]) rfl rfl).2⟩

/-- C1 (counterexample): a completed response with HTTP status 200 (a
success status) does NOT always resolve: with `json` dataType, no custom
parsers, and body `{success: false, data: null}`, the normalizer throws
the contract failure and both transports reject it, contradicting the
claim's "if the HTTP status is in [200,300) or exactly 304 the call
resolves with the normalized data". -/
theorem c1_counterexample :
    isFailureStatus 200 = false ∧
    onFetchLoad RDataType.json none none 200 "OK"
        (JValue.obj [("success", JValue.bool false), ("data", JValue.null)]) =
      FetchOutcome.reject (JSException.reqError
        { status := JValue.num 200, code := JValue.str "0",
          message := "Unknow Error", stack := none }) ∧
    onXHRLoadClassify RDataType.json none none 200 "OK"
        (JValue.obj [("success", JValue.bool false), ("data", JValue.null)]) =
      XhrOutcome.reject (JSException.reqError
        { status := JValue.num 200, code := JValue.str "0",
          message := "Unknow Error", stack := none }) :=
  ⟨rfl, rfl, rfl⟩

/-- C1 (amended): for every completed response whose parsed body is not
`null`/`undefined`, on BOTH transports: if the HTTP status is below 200,
or at/above 300 and not 304, the call rejects with a failure whose status
is that HTTP status, whose message is the body's embedded `errormsg` if
truthy, else the transport's status text if nonempty, else the generic
message, and whose code is the body's embedded `errorcode` if truthy,
else the stringified status; if the status is successful and the response
normalizer returns data, the call resolves with exactly that data (when
the normalizer instead throws — e.g. when the body's contract declares
failure — the call rejects with that error instead). -/
theorem c1_amended (dt : RDataType) (pc gp : Option (JValue → JValue))
    (status : Int) (stext : String) (body : JValue)
    (hbody : isNullish body = false) :
    (isFailureStatus status = true →
      onFetchLoad dt pc gp status stext body =
        FetchOutcome.reject (JSException.reqError (mkRequestError
          (.num status)
          (jsOr (jprop body "errorcode") (.str (toString status)))
          (jsOr (jprop body "errormsg")
            (jsOr (.str stext) (.str REQUEST_ERROR_MSG))) .undefined)) ∧
      onXHRLoadClassify dt pc gp status stext body =
        XhrOutcome.reject (JSException.reqError (mkRequestError
          (.num status)
          (jsOr (jprop body "errorcode") (.str (toString status)))
          (jsOr (jprop body "errormsg")
            (jsOr (.str stext) (.str REQUEST_ERROR_MSG))) .undefined))) ∧
    (isFailureStatus status = false →
      ∀ d : JValue, parseResponse dt pc gp body = Except.ok d →
        onFetchLoad dt pc gp status stext body = FetchOutcome.resolve d ∧
        onXHRLoadClassify dt pc gp status stext body = XhrOutcome.resolve d) := by
  have hget : ∀ k, getProp body k = Except.ok (jprop body k) := by
    intro k
    cases body with
    | undefined => simp [isNullish] at hbody
    | null => simp [isNullish] at hbody
    | bool b => rfl
    | num n => rfl
    | str s => rfl
    | obj fs => rfl
  constructor
  · intro hfail
    constructor
    · simp [onFetchLoad, hfail, hget, Bind.bind, Except.bind,
        Pure.pure, Except.pure]
    · simp [onXHRLoadClassify, hfail, hget, Bind.bind, Except.bind,
        Pure.pure, Except.pure]
  · intro hsucc d hd
    constructor
    · simp [onFetchLoad, hsucc, hd]
    · simp [onXHRLoadClassify, hsucc, hd]

/-- C1 (witness): a 404 with embedded error fields rejects on both
transports with status 404, code "E1", message "boom"; a 200 with an
unwrapped body resolves with that body as data on both transports. -/
theorem c1_amended_witness :
    onFetchLoad RDataType.json none none 404 "Not Found"
        (JValue.obj [("errormsg", JValue.str "boom"),
          ("errorcode", JValue.str "E1")]) =
      FetchOutcome.reject (JSException.reqError
        { status := JValue.num 404, code := JValue.str "E1",
          message := "boom", stack := none }) ∧
    onXHRLoadClassify RDataType.json none none 404 "Not Found"
        (JValue.obj [("errormsg", JValue.str "boom"),
          ("errorcode", JValue.str "E1")]) =
      XhrOutcome.reject (JSException.reqError
        { status := JValue.num 404, code := JValue.str "E1",
          message := "boom", stack := none }) ∧
    onFetchLoad RDataType.json none none 200 "OK"
        (JValue.obj [("ok", JValue.num 1)]) =
      FetchOutcome.resolve (JValue.obj [("ok", JValue.num 1)]) :=
  ⟨(((c1_amended RDataType.json none none 404 "Not Found"
      (JValue.obj [("errormsg", JValue.str "boom"),
        ("errorcode", JValue.str "E1")]) rfl).1 rfl).1).trans rfl,
   (((c1_amended RDataType.json none none 404 "Not Found"
      (JValue.obj [("errormsg", JValue.str "boom"),
        ("errorcode", JValue.str "E1")]) rfl).1 rfl).2).trans rfl,
   ((c1_amended RDataType.json none none 200 "OK"
      (JValue.obj [("ok", JValue.num 1)]) rfl).2 rfl
      (JValue.obj [("ok", JValue.num 1)]) rfl).1⟩

/-- C5 (code_bug): on the legacy transport with `json` dataType, an empty
response text is indeed substituted with an empty object and the call
settles — but INVALID JSON is not: `JSON.parse` is called with no
try/catch inside the `onload` handler, its exception escapes, neither
`resolve` nor `reject` runs, and the promise never settles. The fetch
transport, by contrast, substitutes an empty object on any decode failure
(`parseFetchJSONData`), which the spec declares to be the shared
behavior. -/
theorem c5_invalid_json_hangs (jsonParse : String → Except Unit JValue)
    (hinvalid : jsonParse "\x7b" = Except.error ()) :
    onXHRLoad jsonParse RDataType.json none none 4 200 "OK" "\x7b" =
      XhrOutcome.hang ∧
    onXHRLoad jsonParse RDataType.json none none 4 200 "OK" "" =
      XhrOutcome.resolve (JValue.obj []) ∧
    parseFetchJSONData (Except.error ()) = JValue.obj [] := by
  refine ⟨?_, rfl, rfl⟩
  simp [onXHRLoad, hinvalid]

/-- C5 (witness): with a JSON decoder that throws on the invalid text
`"{"`, the legacy load handler hangs at that input and still substitutes
the empty object for empty text. -/
theorem c5_invalid_json_hangs_witness :
    onXHRLoad (fun _ => Except.error ()) RDataType.json none none 4 200 "OK"
      "\x7b" = XhrOutcome.hang ∧
    onXHRLoad (fun _ => Except.error ()) RDataType.json none none 4 200 "OK"
      "" = XhrOutcome.resolve (JValue.obj []) :=
  ⟨(c5_invalid_json_hangs (fun _ => Except.error ()) rfl).1,
   (c5_invalid_json_hangs (fun _ => Except.error ()) rfl).2.1⟩

end BilljsRequest
